import Mathlib

/-!
Verification of the Promo Video AI orchestrator.

Shallow embedding of `src/App.tsx`: the `generateVideo` service function
(credential check, optional image encoding, job submission, poll loop,
result validation, download, finalization) and the `handleSubmit` prompt
precondition in the UI component.  The external generation service, the
fetch transport and the object-URL factory are modelled as an oracle
environment; every observable action (progress callback, file read, loop
condition test, timer suspension, network call) is recorded in an event
trace so that ordering and counting claims can be stated.
-/

namespace PromoVideo

/-- A browser `File` as the service sees it: the data URL that
`FileReader.readAsDataURL` produces for it, and its MIME `type`. -/
structure File where
  dataUrl : String
  mimeType : String
  deriving DecidableEq, Repr

/-- JavaScript `String.prototype.split` with a one-character separator,
on the character list: splitting an empty list gives one empty group. -/
def splitChars (sep : Char) : List Char → List (List Char)
  | [] => [[]]
  | c :: cs =>
    let r := splitChars sep cs
    if c = sep then [] :: r
    else
      match r with
      | [] => [[c]]
      | g :: gs => (c :: g) :: gs

/-- JavaScript `s.split(sep)` for a one-character separator. -/
def jsSplit (sep : Char) (s : String) : List String :=
  (splitChars sep s.data).map String.mk

/-- Drop leading whitespace characters. -/
def dropWhileWs : List Char → List Char
  | [] => []
  | c :: cs => if c.isWhitespace then dropWhileWs cs else c :: cs

/-- JavaScript `String.prototype.trim`: strip whitespace from both ends. -/
def jsTrim (s : String) : String :=
  String.mk ((dropWhileWs ((dropWhileWs s.data).reverse)).reverse)

/-- `fileToBase64` (src/App.tsx line 262): `result.split(',')[1]` on the
data URL; `none` models the JavaScript `undefined` when there is no comma. -/
def fileToBase64 (f : File) : Option String :=
  (jsSplit ',' f.dataUrl).get? 1

/-- The image payload sent on submission (src/App.tsx lines 292-295). -/
structure ImagePayload where
  imageBytes : Option String
  mimeType : String
  deriving DecidableEq, Repr

/-- The nested `video` object of a generated video; `uri` may be absent. -/
structure VideoRef where
  uri : Option String
  deriving DecidableEq, Repr

/-- One element of `response.generatedVideos`. -/
structure GeneratedVideo where
  video : Option VideoRef
  deriving DecidableEq, Repr

/-- The `response` payload of a terminal operation. -/
structure VideoResponse where
  generatedVideos : List GeneratedVideo
  deriving DecidableEq, Repr

/-- A job handle / operation state returned by the service: the terminal
`done` flag and the optional `response`. -/
structure Operation where
  done : Bool
  response : Option VideoResponse
  deriving DecidableEq, Repr

/-- The optional chain `operation.response?.generatedVideos?.[0]?.video?.uri`
(src/App.tsx line 315). -/
def opUri (op : Operation) : Option String :=
  op.response.bind fun r =>
    (r.generatedVideos.get? 0).bind fun gv =>
      gv.video.bind fun v => v.uri

/-- JavaScript truthiness of an optional string: `undefined` and `""` are
falsy (`!process.env.API_KEY`, `!...uri`). -/
def optTruthy : Option String → Bool
  | none => false
  | some s => !s.isEmpty

/-- The request `ai.models.generateVideos` is called with
(src/App.tsx lines 299-306). -/
structure SubmitRequest where
  model : String
  prompt : String
  image : Option ImagePayload
  numberOfVideos : Nat
  deriving DecidableEq, Repr

/-- A fetch response: `ok` flag, `statusText`, and an identifier for the
blob body. -/
structure FetchResponse where
  ok : Bool
  statusText : String
  blobId : Nat
  deriving DecidableEq, Repr

/-- Observable events of one `generateVideo` call, in program order. -/
inductive Event where
  /-- an `onProgress(msg)` callback invocation -/
  | progress (msg : String)
  /-- the `FileReader.readAsDataURL` read of the image file -/
  | readFile
  /-- one evaluation of the `while (!operation.done)` condition,
      recording the value of the `done` flag it saw -/
  | checkDone (flag : Bool)
  /-- the `setTimeout` suspension, recording the interval in ms -/
  | sleep (ms : Nat)
  /-- the `ai.models.generateVideos` network call -/
  | submit (req : SubmitRequest)
  /-- one `ai.operations.getVideosOperation` network call -/
  | poll
  /-- the download `fetch(url)` network call -/
  | fetch (url : String)
  deriving DecidableEq, Repr

/-- The typed failures of the orchestrator. -/
inductive GenError where
  | missingKey
  | emptyResult
  | download (statusText : String)
  deriving DecidableEq, Repr

/-- The literal `Error` message each failure is thrown with in the source. -/
def GenError.message : GenError → String
  | .missingKey => "API_KEY environment variable not set"
  | .emptyResult => "Video generation failed or returned no URI."
  | .download st => "Failed to download video: " ++ st

/-- The oracle environment: the credential, the service's submission answer,
its answer to the k-th status poll, the fetch transport, and the
`URL.createObjectURL` factory. -/
structure Env where
  apiKey : Option String
  submitOp : Operation
  pollOp : Nat → Operation
  fetchResp : String → FetchResponse
  objectURL : Nat → String

def checkingMsg : String := "Checking video generation status..."
def warmupMsg : String := "AI is warming up... This may take a few minutes."
def sendingMsg : String := "Sending request to AI..."
def encodingMsg : String := "Encoding image..."
def downloadingMsg : String := "Downloading generated video..."
def finalizingMsg : String := "Finalizing video..."
def modelName : String := "veo-2.0-generate-001"

/-- The poll loop (src/App.tsx lines 309-313):
`while (!operation.done) { await sleep(10000); onProgress("Checking...");`
`operation = await getVideosOperation(...) }`, run with `fuel` as the bound
on iterations; `k` counts the `getVideosOperation` calls made so far.
Returns the trace of the loop and, when it exited within `fuel`
iterations, the final operation state. -/
def pollLoop (env : Env) : Nat → Operation → Nat → List Event × Option Operation
  | 0, op, _ =>
    if op.done then ([Event.checkDone true], some op)
    else ([Event.checkDone false], none)
  | fuel + 1, op, k =>
    if op.done then ([Event.checkDone true], some op)
    else
      let rest := pollLoop env fuel (env.pollOp k) (k + 1)
      (Event.checkDone false :: Event.sleep 10000 :: Event.progress checkingMsg ::
        Event.poll :: rest.1, rest.2)

/-- The operation states the loop inspects when started on `op` with poll
counter `k`: `op` itself, then the service's successive poll answers. -/
def opSeq (env : Env) (op : Operation) (k : Nat) : Nat → Operation
  | 0 => op
  | n + 1 => env.pollOp (k + n)

/-- The image-encoding step (src/App.tsx lines 288-296): when a file is
present, emit the progress message, read the file, and build the payload. -/
def encodeStep (imageFile : Option File) : List Event × Option ImagePayload :=
  match imageFile with
  | some f =>
      ([Event.progress encodingMsg, Event.readFile],
       some { imageBytes := fileToBase64 f, mimeType := f.mimeType })
  | none => ([], none)

/-- Result validation, download and finalization (src/App.tsx lines
315-331), given the terminal operation. -/
def finishStep (env : Env) (finOp : Operation) : List Event × Except GenError String :=
  if optTruthy (opUri finOp) then
    let downloadLink := (opUri finOp).getD ""
    let url := downloadLink ++ "&key=" ++ env.apiKey.getD ""
    let resp := env.fetchResp url
    if resp.ok then
      ([Event.progress downloadingMsg, Event.fetch url, Event.progress finalizingMsg],
       Except.ok (env.objectURL resp.blobId))
    else
      ([Event.progress downloadingMsg, Event.fetch url],
       Except.error (GenError.download resp.statusText))
  else
    ([], Except.error GenError.emptyResult)

/-- `generateVideo` (src/App.tsx lines 281-332).  Returns the event trace
and the outcome; the outcome is `none` when the poll loop has not reached a
terminal state within `fuel` iterations (the source loop is unbounded). -/
def generateVideo (env : Env) (prompt : String) (imageFile : Option File)
    (fuel : Nat) : List Event × Option (Except GenError String) :=
  if optTruthy env.apiKey then
    let enc := encodeStep imageFile
    let req : SubmitRequest :=
      { model := modelName, prompt := prompt, image := enc.2, numberOfVideos := 1 }
    let pre := enc.1 ++
      [Event.progress sendingMsg, Event.submit req, Event.progress warmupMsg]
    let pl := pollLoop env fuel env.submitOp 0
    match pl.2 with
    | none => (pre ++ pl.1, none)
    | some finOp =>
        let fin := finishStep env finOp
        (pre ++ pl.1 ++ fin.1, some fin.2)
  else
    ([], some (Except.error GenError.missingKey))

/-- The outcome of the UI submit handler. -/
inductive SubmitOutcome where
  | invalidInput (msg : String)
  | ran (trace : List Event) (result : Option (Except GenError String))

/-- `handleSubmit` (src/App.tsx lines 91-118): on `if (!prompt.trim())` set
the error and return without calling the service, otherwise call
`generateVideo`. -/
def handleSubmit (env : Env) (prompt : String) (imageFile : Option File)
    (fuel : Nat) : SubmitOutcome :=
  if (jsTrim prompt).isEmpty then
    SubmitOutcome.invalidInput "Please enter a prompt for your video."
  else
    let r := generateVideo env prompt imageFile fuel
    SubmitOutcome.ran r.1 r.2

/-- The sequence of `onProgress` messages in a trace. -/
def progressMsgs (evs : List Event) : List String :=
  evs.filterMap fun e => match e with | Event.progress m => some m | _ => none

/-- The submission requests issued in a trace. -/
def submitReqs (evs : List Event) : List SubmitRequest :=
  evs.filterMap fun e => match e with | Event.submit r => some r | _ => none

/-- The download URLs fetched in a trace. -/
def fetchUrls (evs : List Event) : List String :=
  evs.filterMap fun e => match e with | Event.fetch u => some u | _ => none

/-- Whether an event is a network call (submission, poll, or download). -/
def isNetwork : Event → Bool
  | Event.submit _ => true
  | Event.poll => true
  | Event.fetch _ => true
  | _ => false

/-- The network calls in a trace. -/
def networkCalls (evs : List Event) : List Event := evs.filter isNetwork

/-- Number of status polls (`getVideosOperation` calls) in a trace. -/
def pollCount (evs : List Event) : Nat :=
  (evs.filter fun e => match e with | Event.poll => true | _ => false).length

/-- The event block of one poll-loop iteration, in the order the source
performs it. -/
def iterBlock : List Event :=
  [Event.checkDone false, Event.sleep 10000, Event.progress checkingMsg, Event.poll]

/-- `n` consecutive poll-loop iterations. -/
def iterBlocks : Nat → List Event
  | 0 => []
  | n + 1 => iterBlock ++ iterBlocks n

/-- The substring of a data URL after its first comma — phrased from the
claim ("the base64 body with the data:mime;base64, prefix stripped");
`none` when the URL has no comma. -/
def dataUrlBody (s : String) : Option String :=
  match jsSplit ',' s with
  | [] => none
  | [_] => none
  | _ :: rest => some (String.intercalate "," rest)

/-! ### Helper lemmas about traces and the poll loop -/

theorem progressMsgs_append (a b : List Event) :
    progressMsgs (a ++ b) = progressMsgs a ++ progressMsgs b := by
  simp [progressMsgs]

theorem submitReqs_append (a b : List Event) :
    submitReqs (a ++ b) = submitReqs a ++ submitReqs b := by
  simp [submitReqs]

theorem fetchUrls_append (a b : List Event) :
    fetchUrls (a ++ b) = fetchUrls a ++ fetchUrls b := by
  simp [fetchUrls]

theorem networkCalls_append (a b : List Event) :
    networkCalls (a ++ b) = networkCalls a ++ networkCalls b := by
  simp [networkCalls]

theorem pollCount_append (a b : List Event) :
    pollCount (a ++ b) = pollCount a + pollCount b := by
  simp [pollCount]

/-- The loop trace is a run of iteration blocks followed by the final
(or fuel-exhausted) evaluation of the loop condition. -/
theorem pollLoop_shape (env : Env) :
    ∀ (fuel : Nat) (op : Operation) (k : Nat),
      ∃ n b, (pollLoop env fuel op k).1 = iterBlocks n ++ [Event.checkDone b] := by
  intro fuel
  induction fuel with
  | zero =>
    intro op k
    cases hd : op.done
    · exact ⟨0, false, by simp [pollLoop, hd, iterBlocks]⟩
    · exact ⟨0, true, by simp [pollLoop, hd, iterBlocks]⟩
  | succ fuel ih =>
    intro op k
    cases hd : op.done
    · obtain ⟨n, b, hnb⟩ := ih (env.pollOp k) (k + 1)
      exact ⟨n + 1, b, by simp [pollLoop, hd, iterBlocks, iterBlock, hnb]⟩
    · exact ⟨0, true, by simp [pollLoop, hd, iterBlocks]⟩

/-- The operations the loop inspects after its first step are the poll
answers, shifted by one. -/
theorem opSeq_shift (env : Env) (op : Operation) (k : Nat) :
    ∀ n, opSeq env (env.pollOp k) (k + 1) n = opSeq env op k (n + 1) := by
  intro n
  cases n with
  | zero => simp [opSeq]
  | succ m => simp [opSeq, Nat.add_assoc, Nat.add_comm 1 m]

/-- When the poll loop exits, the final operation is terminal, it is the
first operation in the inspected sequence whose `done` flag is true, and
the number of status polls made equals its index. -/
theorem pollLoop_exit (env : Env) :
    ∀ (fuel : Nat) (op : Operation) (k : Nat) (fin : Operation),
      (pollLoop env fuel op k).2 = some fin →
      fin.done = true ∧
        ∃ n, fin = opSeq env op k n ∧ pollCount (pollLoop env fuel op k).1 = n ∧
          ∀ m, m < n → (opSeq env op k m).done = false := by
  intro fuel
  induction fuel with
  | zero =>
    intro op k fin h
    cases hd : op.done
    · simp [pollLoop, hd] at h
    · simp only [pollLoop, hd, if_true, Option.some.injEq] at h
      subst h
      exact ⟨hd, 0, rfl, by simp [pollLoop, hd, pollCount], by omega⟩
  | succ fuel ih =>
    intro op k fin h
    cases hd : op.done
    · simp only [pollLoop, hd, Bool.false_eq_true, if_false] at h
      obtain ⟨hdone, n, hfin, hcnt, hfirst⟩ := ih (env.pollOp k) (k + 1) fin h
      refine ⟨hdone, n + 1, ?_, ?_, ?_⟩
      · rw [hfin, opSeq_shift env op k n]
      · simp [pollLoop, hd, pollCount] at hcnt ⊢
        omega
      · intro m hm
        cases m with
        | zero => simpa [opSeq] using hd
        | succ j =>
          rw [← opSeq_shift env op k j]
          exact hfirst j (by omega)
    · simp only [pollLoop, hd, if_true, Option.some.injEq] at h
      subst h
      exact ⟨hd, 0, rfl, by simp [pollLoop, hd, pollCount], by omega⟩

/-- The poll-loop trace issues no submission requests. -/
theorem submitReqs_pollLoop (env : Env) :
    ∀ (fuel : Nat) (op : Operation) (k : Nat),
      submitReqs (pollLoop env fuel op k).1 = [] := by
  intro fuel
  induction fuel with
  | zero => intro op k; cases hd : op.done <;> simp [pollLoop, hd, submitReqs]
  | succ fuel ih =>
    intro op k
    cases hd : op.done
    · have := ih (env.pollOp k) (k + 1)
      simp [pollLoop, hd, submitReqs] at this ⊢
      exact this
    · simp [pollLoop, hd, submitReqs]

/-- The poll-loop trace issues no download fetches. -/
theorem fetchUrls_pollLoop (env : Env) :
    ∀ (fuel : Nat) (op : Operation) (k : Nat),
      fetchUrls (pollLoop env fuel op k).1 = [] := by
  intro fuel
  induction fuel with
  | zero => intro op k; cases hd : op.done <;> simp [pollLoop, hd, fetchUrls]
  | succ fuel ih =>
    intro op k
    cases hd : op.done
    · have := ih (env.pollOp k) (k + 1)
      simp [pollLoop, hd, fetchUrls] at this ⊢
      exact this
    · simp [pollLoop, hd, fetchUrls]

/-- The poll loop reports exactly one "Checking video generation status..."
message per status poll, and nothing else. -/
theorem progressMsgs_pollLoop (env : Env) :
    ∀ (fuel : Nat) (op : Operation) (k : Nat),
      progressMsgs (pollLoop env fuel op k).1 =
        List.replicate (pollCount (pollLoop env fuel op k).1) checkingMsg := by
  intro fuel
  induction fuel with
  | zero =>
    intro op k
    cases hd : op.done <;> simp [pollLoop, hd, progressMsgs, pollCount]
  | succ fuel ih =>
    intro op k
    cases hd : op.done
    · have := ih (env.pollOp k) (k + 1)
      simp [pollLoop, hd, progressMsgs, pollCount, List.replicate] at this ⊢
      exact this
    · simp [pollLoop, hd, progressMsgs, pollCount]

/-- With a falsy credential the call throws at once: empty trace,
`missingKey` outcome. -/
theorem generateVideo_noKey (env : Env) (prompt : String) (imageFile : Option File)
    (fuel : Nat) (h : optTruthy env.apiKey = false) :
    generateVideo env prompt imageFile fuel =
      ([], some (Except.error GenError.missingKey)) := by
  simp [generateVideo, h]

/-- With a truthy credential and a poll loop that reaches a terminal
state, the call is the encode/submit pre-phase, the loop trace, and the
finish phase on the terminal operation. -/
theorem generateVideo_run (env : Env) (prompt : String) (imageFile : Option File)
    (fuel : Nat) (pevs : List Event) (finOp : Operation)
    (hkey : optTruthy env.apiKey = true)
    (hp : pollLoop env fuel env.submitOp 0 = (pevs, some finOp)) :
    generateVideo env prompt imageFile fuel =
      ((encodeStep imageFile).1 ++
        [Event.progress sendingMsg,
         Event.submit { model := modelName, prompt := prompt,
                        image := (encodeStep imageFile).2, numberOfVideos := 1 },
         Event.progress warmupMsg] ++ pevs ++ (finishStep env finOp).1,
       some (finishStep env finOp).2) := by
  simp [generateVideo, hkey, hp]

/-- When the terminal payload has no usable URI the finish phase is the
empty-result failure with no events. -/
theorem finishStep_noUri (env : Env) (finOp : Operation)
    (hu : optTruthy (opUri finOp) = false) :
    finishStep env finOp = ([], Except.error GenError.emptyResult) := by
  simp [finishStep, hu]

/-- When the terminal payload has a truthy URI, the finish phase fetches
the URI with the credential appended once, then succeeds or fails on the
response's `ok` flag. -/
theorem finishStep_uri (env : Env) (finOp : Operation) (s : String)
    (hu : opUri finOp = some s) (hsE : s.isEmpty = false) :
    finishStep env finOp =
      (if (env.fetchResp (s ++ "&key=" ++ env.apiKey.getD "")).ok then
        ([Event.progress downloadingMsg,
          Event.fetch (s ++ "&key=" ++ env.apiKey.getD ""),
          Event.progress finalizingMsg],
         Except.ok (env.objectURL
           (env.fetchResp (s ++ "&key=" ++ env.apiKey.getD "")).blobId))
      else
        ([Event.progress downloadingMsg,
          Event.fetch (s ++ "&key=" ++ env.apiKey.getD "")],
         Except.error (GenError.download
           (env.fetchResp (s ++ "&key=" ++ env.apiKey.getD "")).statusText))) := by
  simp [finishStep, hu, optTruthy, hsE]

/-- The finish phase never issues a submission request. -/
theorem submitReqs_finishStep (env : Env) (finOp : Operation) :
    submitReqs (finishStep env finOp).1 = [] := by
  by_cases hu : optTruthy (opUri finOp) = true
  · by_cases hok : (env.fetchResp ((opUri finOp).getD "" ++ "&key=" ++ env.apiKey.getD "")).ok
      <;> simp [finishStep, hu, hok, submitReqs]
  · simp [finishStep, Bool.eq_false_iff.2 hu, submitReqs]

/-- The trace of a completed run splits into the pre-phase, the poll
trace, and the finish phase; in particular the outcome is the finish
phase's outcome. -/
theorem result_generateVideo (env : Env) (prompt : String) (imageFile : Option File)
    (fuel : Nat) (pevs : List Event) (finOp : Operation)
    (hkey : optTruthy env.apiKey = true)
    (hpl : pollLoop env fuel env.submitOp 0 = (pevs, some finOp)) :
    (generateVideo env prompt imageFile fuel).2 = some (finishStep env finOp).2 := by
  rw [generateVideo_run env prompt imageFile fuel pevs finOp hkey hpl]

/-- All download fetches of a completed run happen in its finish phase. -/
theorem fetchUrls_generateVideo (env : Env) (prompt : String) (imageFile : Option File)
    (fuel : Nat) (pevs : List Event) (finOp : Operation)
    (hkey : optTruthy env.apiKey = true)
    (hpl : pollLoop env fuel env.submitOp 0 = (pevs, some finOp)) :
    fetchUrls (generateVideo env prompt imageFile fuel).1 =
      fetchUrls (finishStep env finOp).1 := by
  have hpev : fetchUrls pevs = [] := by
    have := fetchUrls_pollLoop env fuel env.submitOp 0
    rwa [hpl] at this
  have henc : fetchUrls (encodeStep imageFile).1 = [] := by
    cases imageFile <;> simp [encodeStep, fetchUrls]
  rw [generateVideo_run env prompt imageFile fuel pevs finOp hkey hpl]
  simp only [fetchUrls_append, hpev, henc]
  simp [fetchUrls]

/-- The progress messages of a completed run: the encode-phase messages,
the submission and warm-up messages, one checking message per status
poll, then the finish-phase messages. -/
theorem progressMsgs_generateVideo (env : Env) (prompt : String)
    (imageFile : Option File) (fuel : Nat) (pevs : List Event) (finOp : Operation)
    (hkey : optTruthy env.apiKey = true)
    (hpl : pollLoop env fuel env.submitOp 0 = (pevs, some finOp)) :
    progressMsgs (generateVideo env prompt imageFile fuel).1 =
      progressMsgs (encodeStep imageFile).1 ++ [sendingMsg, warmupMsg] ++
        List.replicate (pollCount pevs) checkingMsg ++
        progressMsgs (finishStep env finOp).1 := by
  have hpev : progressMsgs pevs = List.replicate (pollCount pevs) checkingMsg := by
    have := progressMsgs_pollLoop env fuel env.submitOp 0
    rwa [hpl] at this
  rw [generateVideo_run env prompt imageFile fuel pevs finOp hkey hpl]
  simp only [progressMsgs_append, hpev]
  simp [progressMsgs]

/-- With a truthy credential, the trace carries exactly the one submission
request built from the prompt and the encoded image. -/
theorem submitReqs_generateVideo (env : Env) (prompt : String)
    (imageFile : Option File) (fuel : Nat) (hkey : optTruthy env.apiKey = true) :
    submitReqs (generateVideo env prompt imageFile fuel).1 =
      [{ model := modelName, prompt := prompt,
         image := (encodeStep imageFile).2, numberOfVideos := 1 }] := by
  rcases hp : pollLoop env fuel env.submitOp 0 with ⟨pevs, fin?⟩
  have hpev : submitReqs pevs = [] := by
    have := submitReqs_pollLoop env fuel env.submitOp 0
    rwa [hp] at this
  have henc : submitReqs (encodeStep imageFile).1 = [] := by
    cases imageFile <;> simp [encodeStep, submitReqs]
  have hfin : ∀ finOp, submitReqs (finishStep env finOp).1 = [] :=
    fun finOp => submitReqs_finishStep env finOp
  simp only [submitReqs] at hpev henc hfin
  cases fin? with
  | none =>
    simp [generateVideo, hkey, hp, hpev, henc, submitReqs]
  | some finOp =>
    simp [generateVideo, hkey, hp, hpev, henc, hfin, submitReqs]

/-! ### Concrete fixtures for witnesses and counterexamples -/

/-- A job still in flight. -/
def opPending : Operation := { done := false, response := none }

/-- A terminal job whose payload carries a video URI. -/
def opDoneUri : Operation :=
  { done := true,
    response := some { generatedVideos :=
      [{ video := some { uri := some "https://vid.example/file.mp4?alt=media" } }] } }

/-- A terminal job with no payload at all. -/
def opDoneBare : Operation := { done := true, response := none }

/-- A service that reports the job done with a URI on the first poll and a
transport that succeeds. -/
def envHappy : Env :=
  { apiKey := some "SECRET",
    submitOp := opPending,
    pollOp := fun n => if n = 0 then opDoneUri else opPending,
    fetchResp := fun _ => { ok := true, statusText := "OK", blobId := 7 },
    objectURL := fun _ => "blob:local-video" }

/-- The same service with the credential unset. -/
def envNoKey : Env := { envHappy with apiKey := none }

/-- The same service, but the terminal operation carries no payload. -/
def envBareResult : Env := { envHappy with pollOp := fun _ => opDoneBare }

/-- The same service with a failing download transport. -/
def envBadFetch : Env :=
  { envHappy with
    fetchResp := fun _ => { ok := false, statusText := "Not Found", blobId := 0 } }

/-- A seed image file as the FileReader presents it. -/
def fileW : File := { dataUrl := "data:image/png;base64,QUJD", mimeType := "image/png" }

/-! ### The claims -/

/-- C1: for every submitted job the poll loop inspects the job's terminal
(`done`) flag at least once, and whenever the loop exits, the final
operation's flag is true and it is the first operation in the inspected
sequence (the submission answer, then the successive poll answers) whose
flag is true — the loop never exits while the flag is false. -/
theorem c1_poll_loop_first_terminal (env : Env) (fuel : Nat) (op : Operation)
    (k : Nat) :
    (∃ b, Event.checkDone b ∈ (pollLoop env fuel op k).1) ∧
    ∀ fin, (pollLoop env fuel op k).2 = some fin →
      fin.done = true ∧
        ∃ n, fin = opSeq env op k n ∧
          pollCount (pollLoop env fuel op k).1 = n ∧
          ∀ m, m < n → (opSeq env op k m).done = false := by
  constructor
  · obtain ⟨n, b, hnb⟩ := pollLoop_shape env fuel op k
    exact ⟨b, by rw [hnb]; simp⟩
  · intro fin h
    exact pollLoop_exit env fuel op k fin h

/-- C1 witness: a job that is pending on submission and done on the first
poll exits the loop at that first terminal state after one status poll. -/
theorem c1_witness :
    (∃ b, Event.checkDone b ∈ (pollLoop envHappy 5 opPending 0).1) ∧
    (opDoneUri.done = true ∧
      ∃ n, opDoneUri = opSeq envHappy opPending 0 n ∧
        pollCount (pollLoop envHappy 5 opPending 0).1 = n ∧
        ∀ m, m < n → (opSeq envHappy opPending 0 m).done = false) :=
  ⟨(c1_poll_loop_first_terminal envHappy 5 opPending 0).1,
   (c1_poll_loop_first_terminal envHappy 5 opPending 0).2 opDoneUri (by decide)⟩

/-- The iteration ordering C2 asserts: each 10-second suspension is
followed directly by the status re-fetch, and only then the progress
report. -/
def c2ClaimedOrder (evs : List Event) : Prop :=
  ∀ i, i < evs.length → evs.get? i = some (Event.sleep 10000) →
    evs.get? (i + 1) = some Event.poll ∧
    evs.get? (i + 2) = some (Event.progress checkingMsg)

/-- C2 counterexample: on a one-iteration run of the loop, the event
following the suspension is the progress report, not the status re-fetch,
so the claimed iteration order is false. -/
theorem c2_counterexample : ¬ c2ClaimedOrder (pollLoop envHappy 5 opPending 0).1 := by
  unfold c2ClaimedOrder
  decide

/-- C2 (amended): every iteration of the poll loop performs, in order, a
suspension for the fixed 10000 ms interval, then the progress report
"Checking video generation status...", then the status re-fetch — the
trace is a run of identical `iterBlock`s, so the interval is the same
fixed constant on every iteration. -/
theorem c2_fixed_interval_iterations (env : Env) (fuel : Nat) (op : Operation)
    (k : Nat) :
    ∃ n b, (pollLoop env fuel op k).1 = iterBlocks n ++ [Event.checkDone b] :=
  pollLoop_shape env fuel op k

/-- C3: an empty or whitespace-only prompt is rejected as invalid input
without the service ever being called; a non-empty prompt reaches
`generateVideo`, and whenever the credential is present the submission
request is issued exactly once. -/
theorem c3_prompt_gate (env : Env) (prompt : String) (imageFile : Option File)
    (fuel : Nat) :
    ((jsTrim prompt).isEmpty = true →
      handleSubmit env prompt imageFile fuel =
        SubmitOutcome.invalidInput "Please enter a prompt for your video.") ∧
    ((jsTrim prompt).isEmpty = false →
      handleSubmit env prompt imageFile fuel =
        SubmitOutcome.ran (generateVideo env prompt imageFile fuel).1
          (generateVideo env prompt imageFile fuel).2 ∧
      (optTruthy env.apiKey = true →
        submitReqs (generateVideo env prompt imageFile fuel).1 =
          [{ model := modelName, prompt := prompt,
             image := (encodeStep imageFile).2, numberOfVideos := 1 }])) := by
  refine ⟨fun h => by simp [handleSubmit, h], fun h => ⟨by simp [handleSubmit, h], ?_⟩⟩
  exact fun hkey => submitReqs_generateVideo env prompt imageFile fuel hkey

/-- C3 witness: a whitespace-only prompt is rejected, and a non-empty
prompt with the credential present submits exactly once. -/
theorem c3_witness :
    handleSubmit envHappy "   " none 5 =
      SubmitOutcome.invalidInput "Please enter a prompt for your video." ∧
    submitReqs (generateVideo envHappy "a cat" none 5).1 =
      [{ model := modelName, prompt := "a cat", image := none, numberOfVideos := 1 }] :=
  ⟨(c3_prompt_gate envHappy "   " none 5).1 (by decide),
   ((c3_prompt_gate envHappy "a cat" none 5).2 (by decide)).2 (by decide)⟩

/-- C4: with the credential absent (or empty, which the code's truthiness
test treats the same), the call fails immediately with the
missing-credential error, its trace is empty, and in particular it makes
zero network calls. -/
theorem c4_missing_credential (env : Env) (prompt : String) (imageFile : Option File)
    (fuel : Nat) (h : optTruthy env.apiKey = false) :
    generateVideo env prompt imageFile fuel =
      ([], some (Except.error GenError.missingKey)) ∧
    networkCalls (generateVideo env prompt imageFile fuel).1 = [] := by
  have hg := generateVideo_noKey env prompt imageFile fuel h
  exact ⟨hg, by rw [hg]; simp [networkCalls]⟩

/-- C4 witness: the unset-credential environment fails at once with the
missing-credential error and makes no network call. -/
theorem c4_witness :
    generateVideo envNoKey "a cat" none 5 =
      ([], some (Except.error GenError.missingKey)) ∧
    networkCalls (generateVideo envNoKey "a cat" none 5).1 = [] :=
  c4_missing_credential envNoKey "a cat" none 5 (by decide)

/-- C5: when the poll loop exits on a terminal operation whose payload
lacks the nested `response.generatedVideos[0].video.uri` reference, the
call fails with the empty-result error and no download fetch appears in
the trace. -/
theorem c5_empty_result (env : Env) (prompt : String) (imageFile : Option File)
    (fuel : Nat) (finOp : Operation)
    (hkey : optTruthy env.apiKey = true)
    (hp : (pollLoop env fuel env.submitOp 0).2 = some finOp)
    (hu : opUri finOp = none) :
    (generateVideo env prompt imageFile fuel).2 =
      some (Except.error GenError.emptyResult) ∧
    fetchUrls (generateVideo env prompt imageFile fuel).1 = [] := by
  rcases hpl : pollLoop env fuel env.submitOp 0 with ⟨pevs, fin?⟩
  rw [hpl] at hp
  subst hp
  have hfin := finishStep_noUri env finOp (by simp [hu, optTruthy])
  constructor
  · rw [result_generateVideo env prompt imageFile fuel pevs finOp hkey hpl, hfin]
  · rw [fetchUrls_generateVideo env prompt imageFile fuel pevs finOp hkey hpl, hfin]
    simp [fetchUrls]

/-- C5 witness: a terminal operation with no payload yields the
empty-result error and no download. -/
theorem c5_witness :
    (generateVideo envBareResult "a cat" none 5).2 =
      some (Except.error GenError.emptyResult) ∧
    fetchUrls (generateVideo envBareResult "a cat" none 5).1 = [] :=
  c5_empty_result envBareResult "a cat" none 5 opDoneBare (by decide) (by decide)
    (by decide)

/-- C6: when the poll loop exits on a terminal operation carrying a
(truthy) media reference, exactly one download fetch is issued, and its
URL is that reference with the credential appended as the `key` query
parameter. -/
theorem c6_single_download (env : Env) (prompt : String) (imageFile : Option File)
    (fuel : Nat) (finOp : Operation) (s k : String)
    (hk : env.apiKey = some k) (hkE : k.isEmpty = false)
    (hp : (pollLoop env fuel env.submitOp 0).2 = some finOp)
    (hu : opUri finOp = some s) (hsE : s.isEmpty = false) :
    fetchUrls (generateVideo env prompt imageFile fuel).1 = [s ++ "&key=" ++ k] := by
  have hkey : optTruthy env.apiKey = true := by simp [hk, optTruthy, hkE]
  rcases hpl : pollLoop env fuel env.submitOp 0 with ⟨pevs, fin?⟩
  rw [hpl] at hp
  subst hp
  rw [fetchUrls_generateVideo env prompt imageFile fuel pevs finOp hkey hpl,
    finishStep_uri env finOp s hu hsE]
  simp only [hk, Option.getD_some]
  by_cases hok : (env.fetchResp (s ++ "&key=" ++ k)).ok <;> simp [hok, fetchUrls]

/-- C6 witness: the happy-path run downloads exactly once, from the
returned URI with `&key=SECRET` appended. -/
theorem c6_witness :
    fetchUrls (generateVideo envHappy "a cat" none 5).1 =
      ["https://vid.example/file.mp4?alt=media" ++ "&key=" ++ "SECRET"] :=
  c6_single_download envHappy "a cat" none 5 opDoneUri
    "https://vid.example/file.mp4?alt=media" "SECRET" rfl (by decide) (by decide)
    (by decide) (by decide)

/-- C7: when the single download fetch answers with `ok = false`, the call
fails with the download error carrying the response's status text, and no
local media handle is produced. -/
theorem c7_download_error (env : Env) (prompt : String) (imageFile : Option File)
    (fuel : Nat) (finOp : Operation) (s k : String)
    (hk : env.apiKey = some k) (hkE : k.isEmpty = false)
    (hp : (pollLoop env fuel env.submitOp 0).2 = some finOp)
    (hu : opUri finOp = some s) (hsE : s.isEmpty = false)
    (hbad : (env.fetchResp (s ++ "&key=" ++ k)).ok = false) :
    (generateVideo env prompt imageFile fuel).2 =
      some (Except.error
        (GenError.download (env.fetchResp (s ++ "&key=" ++ k)).statusText)) ∧
    ∀ u, (generateVideo env prompt imageFile fuel).2 ≠ some (Except.ok u) := by
  have hkey : optTruthy env.apiKey = true := by simp [hk, optTruthy, hkE]
  rcases hpl : pollLoop env fuel env.submitOp 0 with ⟨pevs, fin?⟩
  rw [hpl] at hp
  subst hp
  have hres : (generateVideo env prompt imageFile fuel).2 =
      some (Except.error
        (GenError.download (env.fetchResp (s ++ "&key=" ++ k)).statusText)) := by
    rw [result_generateVideo env prompt imageFile fuel pevs finOp hkey hpl,
      finishStep_uri env finOp s hu hsE]
    simp only [hk, Option.getD_some]
    simp [hbad]
  exact ⟨hres, fun u => by rw [hres]; simp⟩

/-- C7 witness: a 404 transport yields the download error with the
"Not Found" status text. -/
theorem c7_witness :
    (generateVideo envBadFetch "a cat" none 5).2 =
      some (Except.error (GenError.download
        (envBadFetch.fetchResp
          ("https://vid.example/file.mp4?alt=media" ++ "&key=" ++ "SECRET")).statusText)) :=
  (c7_download_error envBadFetch "a cat" none 5 opDoneUri
    "https://vid.example/file.mp4?alt=media" "SECRET" rfl (by decide) (by decide)
    (by decide) (by decide) (by decide)).1

/-- C8 counterexample: on a complete no-image run, the second progress
message is the full "AI is warming up... This may take a few minutes.",
not the "AI is warming up..." the claim lists (here with N = 1 poll
iterations), so the claimed message sequence is not observed. -/
theorem c8_counterexample :
    ¬ progressMsgs (generateVideo envHappy "a cat skateboarding" none 5).1 =
      ["Sending request to AI...", "AI is warming up...",
       "Checking video generation status...",
       "Downloading generated video...", "Finalizing video..."] := by
  decide

/-- C8 (amended): for every successful no-image run, the submission is
issued once with `image` undefined, the progress messages are exactly
"Sending request to AI...", "AI is warming up... This may take a few
minutes.", then "Checking video generation status..." once per poll
iteration, then "Downloading generated video..." and "Finalizing
video...", and the call returns the local media handle built from the
downloaded blob. -/
theorem c8_happy_path (env : Env) (prompt : String) (fuel : Nat)
    (pevs : List Event) (finOp : Operation) (s k : String)
    (hk : env.apiKey = some k) (hkE : k.isEmpty = false)
    (hpl : pollLoop env fuel env.submitOp 0 = (pevs, some finOp))
    (hu : opUri finOp = some s) (hsE : s.isEmpty = false)
    (hok : (env.fetchResp (s ++ "&key=" ++ k)).ok = true) :
    submitReqs (generateVideo env prompt none fuel).1 =
      [{ model := modelName, prompt := prompt, image := none,
         numberOfVideos := 1 }] ∧
    progressMsgs (generateVideo env prompt none fuel).1 =
      [sendingMsg, warmupMsg] ++ List.replicate (pollCount pevs) checkingMsg ++
        [downloadingMsg, finalizingMsg] ∧
    (generateVideo env prompt none fuel).2 =
      some (Except.ok
        (env.objectURL (env.fetchResp (s ++ "&key=" ++ k)).blobId)) := by
  have hkey : optTruthy env.apiKey = true := by simp [hk, optTruthy, hkE]
  have hfin := finishStep_uri env finOp s hu hsE
  refine ⟨?_, ?_, ?_⟩
  · simpa [encodeStep] using submitReqs_generateVideo env prompt none fuel hkey
  · rw [progressMsgs_generateVideo env prompt none fuel pevs finOp hkey hpl, hfin]
    simp only [hk, Option.getD_some]
    simp [hok, encodeStep, progressMsgs]
  · rw [result_generateVideo env prompt none fuel pevs finOp hkey hpl, hfin]
    simp only [hk, Option.getD_some]
    simp [hok]

/-- C8 witness: the happy-path environment runs end to end with one poll
iteration and the expected messages, submission, and handle. -/
theorem c8_witness :
    submitReqs (generateVideo envHappy "a cat skateboarding" none 5).1 =
      [{ model := modelName, prompt := "a cat skateboarding", image := none,
         numberOfVideos := 1 }] ∧
    progressMsgs (generateVideo envHappy "a cat skateboarding" none 5).1 =
      [sendingMsg, warmupMsg] ++
        List.replicate (pollCount [Event.checkDone false, Event.sleep 10000,
          Event.progress checkingMsg, Event.poll, Event.checkDone true])
          checkingMsg ++
        [downloadingMsg, finalizingMsg] ∧
    (generateVideo envHappy "a cat skateboarding" none 5).2 =
      some (Except.ok (envHappy.objectURL (envHappy.fetchResp
        ("https://vid.example/file.mp4?alt=media" ++ "&key=" ++ "SECRET")).blobId)) :=
  c8_happy_path envHappy "a cat skateboarding" 5
    [Event.checkDone false, Event.sleep 10000, Event.progress checkingMsg,
      Event.poll, Event.checkDone true] opDoneUri
    "https://vid.example/file.mp4?alt=media" "SECRET" rfl (by decide) (by decide)
    (by decide) (by decide) (by decide)

/-- C9: the credential check is the first step of every call — with the
credential absent, even a call that supplies an image emits no progress
message at all (in particular no "Encoding image..."), never reads the
image file, and throws the missing-credential error. -/
theorem c9_credential_checked_first (env : Env) (prompt : String) (f : File)
    (fuel : Nat) (h : optTruthy env.apiKey = false) :
    progressMsgs (generateVideo env prompt (some f) fuel).1 = [] ∧
    Event.readFile ∉ (generateVideo env prompt (some f) fuel).1 ∧
    (generateVideo env prompt (some f) fuel).2 =
      some (Except.error GenError.missingKey) := by
  have hg := generateVideo_noKey env prompt (some f) fuel h
  refine ⟨?_, ?_, ?_⟩ <;> rw [hg] <;> simp [progressMsgs]

/-- C9 witness: with no credential and an image supplied, nothing is
reported, the file is never read, and the call fails. -/
theorem c9_witness :
    progressMsgs (generateVideo envNoKey "a cat" (some fileW) 5).1 = [] ∧
    Event.readFile ∉ (generateVideo envNoKey "a cat" (some fileW) 5).1 ∧
    (generateVideo envNoKey "a cat" (some fileW) 5).2 =
      some (Except.error GenError.missingKey) :=
  c9_credential_checked_first envNoKey "a cat" fileW 5 (by decide)

/-- C10: the submitted image payload is `imageBytes` = the substring of
the FileReader data URL after its first comma together with the file's
MIME type when an image is present (the data URL, produced by
`readAsDataURL`, has exactly one comma), and `undefined` when no image is
present. -/
theorem c10_image_payload (env : Env) (prompt : String) (imageFile : Option File)
    (fuel : Nat) (hkey : optTruthy env.apiKey = true)
    (hwf : ∀ f, imageFile = some f → (jsSplit ',' f.dataUrl).length = 2) :
    submitReqs (generateVideo env prompt imageFile fuel).1 =
      [{ model := modelName, prompt := prompt,
         image := imageFile.map fun f =>
           { imageBytes := dataUrlBody f.dataUrl, mimeType := f.mimeType },
         numberOfVideos := 1 }] := by
  rw [submitReqs_generateVideo env prompt imageFile fuel hkey]
  have henc : (encodeStep imageFile).2 = imageFile.map fun f =>
      ({ imageBytes := dataUrlBody f.dataUrl, mimeType := f.mimeType } : ImagePayload) := by
    cases imageFile with
    | none => simp [encodeStep]
    | some f =>
      obtain ⟨a, b, hab⟩ := List.length_eq_two.mp (hwf f rfl)
      have hib : String.intercalate "," [b] = b := rfl
      simp [encodeStep, fileToBase64, dataUrlBody, hab, hib]
  rw [henc]

/-- C10 witness: a PNG file whose data URL is
"data:image/png;base64,QUJD" is submitted as its base64 body with its
MIME type. -/
theorem c10_witness :
    submitReqs (generateVideo envHappy "a cat" (some fileW) 5).1 =
      [{ model := modelName, prompt := "a cat",
         image := (some fileW).map fun f =>
           { imageBytes := dataUrlBody f.dataUrl, mimeType := f.mimeType },
         numberOfVideos := 1 }] :=
  c10_image_payload envHappy "a cat" (some fileW) 5 (by decide)
    (fun f hf => by cases hf; decide)

end PromoVideo
